import Mathlib

/-!
Verification of the INNOWATT telemetry relay backend (INNOWATT_BACKEND.py).

The backend is a Flask service that authenticates against ThingsBoard,
fetches device telemetry, normalizes vendor key casing into a stable
schema, and re-exposes the result as JSON. We embed the fetch-and-normalize
pipeline shallowly: network effects become an oracle (`World`) supplying
the response to each outbound call, and every function additionally
returns the list of network events it performed, so that call-count and
retry properties are provable. Python exceptions that can escape a
function are modelled with `Except PyError`; exceptions that the source
catches locally are folded into the returned value, as the source does.
-/

deriving instance DecidableEq for Except

/-- A JSON value as it may appear in a telemetry payload field.
Numbers are modelled as rationals (no claim depends on binary float
rounding); `composite` stands for arrays and objects, whose only role
here is that Python `float()` raises TypeError on them. -/
inductive JVal
  | num (q : ℚ)
  | str (s : String)
  | boolv (b : Bool)
  | null
  | composite
deriving DecidableEq

/-- Numeric value of a run of decimal digits. -/
def digitsVal (cs : List Char) : ℕ :=
  cs.foldl (fun a c => a * 10 + (c.toNat - 48)) 0

/-- Models Python `float()` applied to a string: optional sign, decimal
digits with an optional fractional part, surrounding whitespace stripped.
(Exponent forms, `inf` and `nan` are omitted; no claim depends on which
exotic strings parse — only on parse success versus failure being caught.) -/
def parseFloat (s : String) : Option ℚ :=
  let t := s.trim
  let sgn : ℚ × String :=
    if t.startsWith "-" then (-1, t.drop 1)
    else if t.startsWith "+" then (1, t.drop 1) else (1, t)
  match (sgn.2.splitOn ".") with
  | [ip] =>
      if ip.data ≠ [] ∧ ip.data.all Char.isDigit then
        some (sgn.1 * digitsVal ip.data) else none
  | [ip, fp] =>
      if (ip.data ++ fp.data) ≠ [] ∧ ip.data.all Char.isDigit ∧ fp.data.all Char.isDigit then
        some (sgn.1 * ((digitsVal ip.data : ℚ) + (digitsVal fp.data : ℚ) / (10 ^ fp.data.length)))
      else none
  | _ => none

/-- Python `float(x)` on a JSON value: numbers pass through, booleans
coerce, strings are parsed; `none` means the call raises
(ValueError or TypeError), which the source catches. -/
def pyFloat : JVal → Option ℚ
  | .num q => some q
  | .boolv b => some (if b then 1 else 0)
  | .str s => parseFloat s
  | .null => none
  | .composite => none

/-- One record of a telemetry time series: the optional `value` field
(absent means a lookup of `"value"` raises KeyError) and the optional
`ts` field (extracted verbatim by the source). -/
structure Entry where
  value : Option JVal
  ts : Option Int
deriving DecidableEq

/-- An upstream telemetry payload: a JSON object mapping key names to
arrays of records, read as an association list (dict keys are unique;
lookup takes the first binding). -/
abbrev Payload := List (String × List Entry)

/-- An outward JSON object (snapshot or error body). -/
abbrev Snapshot := List (String × JVal)

/-- A Python exception that escapes a function in this embedding. -/
inductive PyError
  | indexError
  | typeError
deriving DecidableEq

/-- `TELEMETRY_KEY_MAPPING` from the source: canonical metric key to the
ordered list of vendor spelling variants. -/
def TELEMETRY_KEY_MAPPING : List (String × List String) :=
  [("voltage", ["Voltage", "voltage", "VOLTAGE"]),
   ("current", ["Current", "current", "CURRENT"]),
   ("power", ["Power", "power", "POWER"]),
   ("energy", ["Energy", "energy", "ENERGY"]),
   ("frequency", ["Frequency", "frequency", "FREQUENCY"]),
   ("powerfact", ["PowerFact", "PF", "powerfactor", "Power_Factor"]),
   ("rmp", ["RMP", "rmp", "Rmp"])]

/-- `find_matching_key(data, possible_keys)`: the first key of the list
present in the payload (`key in data`), if any. -/
def find_matching_key (d : Payload) (possible_keys : List String) : Option String :=
  possible_keys.find? (fun k => (d.lookup k).isSome)

/-- `float(entry.get("value", 0.0))` with its surrounding
`except (ValueError, TypeError)` handler: a missing `value` field and a
failing parse both degrade to 0.0. -/
def entryValue (e : Entry) : ℚ :=
  match e.value with
  | none => 0
  | some v => (pyFloat v).getD 0

/-- `get_value_and_timestamp(data, standard_key)`. The alias list comes
from `TELEMETRY_KEY_MAPPING` with the canonical key itself as fallback.
Python `if not actual_key` treats the empty string as falsy, hence the
extra guard. `data.get(actual_key, [{}])[0]` only applies its default
when the key is absent — which cannot happen once a match was found —
so an empty array under the matched key makes the `[0]` indexing raise
IndexError, which nothing in the source catches. -/
def get_value_and_timestamp (d : Payload) (standard_key : String) :
    Except PyError (ℚ × Option Int) :=
  let possible_keys := (TELEMETRY_KEY_MAPPING.lookup standard_key).getD [standard_key]
  match find_matching_key d possible_keys with
  | none => .ok (0, none)
  | some actual_key =>
    if actual_key = "" then .ok (0, none)
    else
      match (d.lookup actual_key).getD [{ value := none, ts := none }] with
      | [] => .error .indexError
      | e :: _ => .ok (entryValue e, e.ts)

/-- Outcome of one POST to the login endpoint.
`httpError` covers transport failures and every non-401 error status
(`raise_for_status` raises, the handler catches `RequestException`);
`success` carries the `token` field of the JSON body (`none` if absent). -/
inductive LoginResp
  | status401
  | httpError
  | success (token : Option String)
deriving DecidableEq

/-- Outcome of one GET to the telemetry time-series endpoint.
`httpError` covers transport failures and non-401 error statuses
(including a JSON body that fails to parse, which also raises a
`RequestException` subclass); `success` carries the parsed body. -/
inductive TelemResp
  | status401
  | httpError
  | success (body : Payload)
deriving DecidableEq

/-- Oracle for the network: whether the connectivity probe succeeds,
the response to the i-th login attempt, the response to the n-th
telemetry GET of a fetch call, and the current epoch time in ms. -/
structure World where
  internetUp : Bool
  loginResp : ℕ → LoginResp
  telemResp : ℕ → TelemResp
  nowMs : Int

/-- Process configuration loaded from the environment. Credentials are
folded into the login oracle; only the static override token
(`JWT_TOKEN`) is observable in the control flow we verify. -/
structure Config where
  jwtToken : Option String

/-- Query parameters of a telemetry GET, as built by `fetch_telemetry`.
`keys` holds the deduplicated expanded key set (the Python `set` has no
specified iteration order for the final join; the server matches by
name, so we keep the list form). -/
structure Params where
  keys : Option (List String)
  startTs : Option Int
  endTs : Option Int
  interval : Option Int
  limit : Option Int
deriving DecidableEq

/-- One observable network event. -/
inductive Event
  | probe
  | login
  | sleep (seconds : ℕ)
  | telemetryGet (token : String) (params : Params)
deriving DecidableEq

/-- The attempt loop of `get_auth_token`: `for attempt in range(3)`.
A 401 returns None at once; success returns the token field; any other
failure sleeps `2 ** attempt` seconds when `attempt < 2` and retries. -/
def auth_attempts (resp : ℕ → LoginResp) : ℕ → ℕ → Option String × List Event
  | _, 0 => (none, [])
  | attempt, remaining + 1 =>
    match resp attempt with
    | .status401 => (none, [.login])
    | .success t => (t, [.login])
    | .httpError =>
      let rest := auth_attempts resp (attempt + 1) remaining
      if attempt < 2 then (rest.1, .login :: .sleep (2 ^ attempt) :: rest.2)
      else (rest.1, .login :: rest.2)

/-- `get_auth_token()`: gate on the connectivity probe, then run the
attempt loop. Note that the source never consults the static override
token here — the `cfg` argument is deliberately unused, mirroring the
source, where `get_auth_token` reads only the credentials. -/
def get_auth_token (_cfg : Config) (w : World) : Option String × List Event :=
  if w.internetUp then
    let r := auth_attempts w.loginResp 0 3
    (r.1, .probe :: r.2)
  else (none, [.probe])

/-- Python truthiness of an optional integer query argument:
`if start_ts:` is false for both `None` and `0`. -/
def pyOptInt : Option Int → Option Int
  | some x => if x = 0 then none else some x
  | none => none

/-- The key-expansion step of `fetch_telemetry`: each requested key is
lowercased and looked up in `TELEMETRY_KEY_MAPPING` (falling back to the
literal key), then the accumulated list is deduplicated (`set(tb_keys)`). -/
def expand_keys (keys : List String) : List String :=
  (keys.foldl (fun acc k => acc ++ (TELEMETRY_KEY_MAPPING.lookup k.toLower).getD [k]) []).dedup

/-- The query-parameter dictionary built by `fetch_telemetry`: every
optional argument is added only when Python-truthy. -/
def build_params (keys : Option (List String)) (s e i l : Option Int) : Params :=
  { keys := match keys with
            | some ks => if ks = [] then none else some (expand_keys ks)
            | none => none
    startTs := pyOptInt s
    endTs := pyOptInt e
    interval := pyOptInt i
    limit := pyOptInt l }

/-- `response.raise_for_status()` followed by `return response.json()`,
under the surrounding `except RequestException` handler: any non-success
response becomes `None`. -/
def respBody : TelemResp → Option Payload
  | .success b => some b
  | _ => none

/-- `fetch_telemetry(token, keys, start_ts, end_ts, interval, limit)`.
Gates: falsy token (None or empty) or failed probe return None. One GET;
on 401, one call to `get_auth_token` and — if the new token is truthy —
exactly one retried GET with the same params; then `raise_for_status` on
whichever response is current, all under the RequestException handler. -/
def fetch_telemetry (cfg : Config) (w : World) (token : Option String)
    (keys : Option (List String)) (start_ts end_ts interval limit : Option Int) :
    Option Payload × List Event :=
  match token with
  | none => (none, [])
  | some t =>
    if t = "" then (none, [])
    else if w.internetUp then
      let params := build_params keys start_ts end_ts interval limit
      match w.telemResp 0 with
      | .status401 =>
        let auth := get_auth_token cfg w
        (match auth.1 with
         | some nt =>
           if nt = "" then (none, [.probe, .telemetryGet t params] ++ auth.2)
           else (respBody (w.telemResp 1),
                 [.probe, .telemetryGet t params] ++ auth.2 ++ [.telemetryGet nt params])
         | none => (none, [.probe, .telemetryGet t params] ++ auth.2))
      | r => (respBody r, [.probe, .telemetryGet t params])
    else (none, [.probe])

/-- Rendering of an optional timestamp into the snapshot JSON. -/
def optTsJ : Option Int → JVal
  | some t => .num t
  | none => .null

/-- `process_telemetry_data(telemetry_data)`: `None` for a falsy payload,
otherwise the seven metrics resolved in source order (power, voltage,
current, frequency, rmp, energy, powerfact) into the snapshot object. A
raise from any resolution (see `get_value_and_timestamp`) propagates.
Note the powerfact metric is emitted under the JSON key `"powerfactor"`. -/
def process_telemetry_data (nowMs : Int) (d : Payload) :
    Except PyError (Option Snapshot) :=
  if d = [] then .ok none
  else
    match get_value_and_timestamp d "power" with
    | .error er => .error er
    | .ok p =>
    match get_value_and_timestamp d "voltage" with
    | .error er => .error er
    | .ok v =>
    match get_value_and_timestamp d "current" with
    | .error er => .error er
    | .ok c =>
    match get_value_and_timestamp d "frequency" with
    | .error er => .error er
    | .ok f =>
    match get_value_and_timestamp d "rmp" with
    | .error er => .error er
    | .ok r =>
    match get_value_and_timestamp d "energy" with
    | .error er => .error er
    | .ok en =>
    match get_value_and_timestamp d "powerfact" with
    | .error er => .error er
    | .ok pf =>
      .ok (some
        [("power", .num p.1), ("power_timestamp", optTsJ p.2),
         ("voltage", .num v.1), ("voltage_timestamp", optTsJ v.2),
         ("current", .num c.1), ("current_timestamp", optTsJ c.2),
         ("frequency", .num f.1), ("frequency_timestamp", optTsJ f.2),
         ("rmp", .num r.1), ("rmp_timestamp", optTsJ r.2),
         ("energy", .num en.1), ("energy_timestamp", optTsJ en.2),
         ("powerfactor", .num pf.1), ("powerfactor_timestamp", optTsJ pf.2),
         ("timestamp", .num nowMs), ("online", .boolv true)])

/-- The ngrok-URL scan of the `/api/telemetry` route: for each alias in
order, if the key is present with a truthy (non-empty) array, take
`[0]["value"]`; a KeyError on the value field is caught and the scan
continues; any found value (even JSON null) stops the scan. -/
def extract_ngrok (d : Payload) : Option JVal :=
  ["ngrok_url", "Ngrok_Url", "NGROK_URL"].findSome? (fun k =>
    match d.lookup k with
    | some (e :: _) => e.value
    | _ => none)

/-- The 401 error body of the routes. -/
def authErrBody : Snapshot :=
  [("error", .str "Authentication failed"), ("online", .boolv false)]

/-- The 500 error body of the routes. -/
def fetchErrBody : Snapshot :=
  [("error", .str "Could not fetch telemetry"), ("online", .boolv false)]

/-- The keys requested by the `/api/telemetry` route. -/
def route_keys : List String :=
  ["power", "voltage", "current", "frequency", "rmp", "energy", "powerfact", "ngrok_url"]

/-- Result of a route handler: a 200 JSON body, an error JSON body with
its status code, or a Python exception escaping to the HTTP layer. -/
inductive RouteResult
  | ok (body : Snapshot)
  | errJson (status : Int) (body : Snapshot)
  | uncaught (e : PyError)
deriving DecidableEq

/-- `token = JWT_TOKEN if JWT_TOKEN else get_auth_token()` at the top of
each route: the static override is used only when truthy. -/
def route_token (cfg : Config) (w : World) : Option String × List Event :=
  match cfg.jwtToken with
  | some j => if j = "" then get_auth_token cfg w else (some j, [])
  | none => get_auth_token cfg w

/-- The `/api/telemetry` route (`get_telemetry`). No try/except exists at
this level: a raise out of `process_telemetry_data` escapes uncaught.
The `.ok none` arm models the source faithfully in the unreachable case
where the processed result is None past the falsy guard (assigning the
ngrok key into None would raise TypeError). -/
def get_telemetry_route (cfg : Config) (w : World) : RouteResult × List Event :=
  let tk := route_token cfg w
  match tk.1 with
  | none => (.errJson 401 authErrBody, tk.2)
  | some t =>
    if t = "" then (.errJson 401 authErrBody, tk.2)
    else
      let fr := fetch_telemetry cfg w (some t) (some route_keys) none none none none
      match fr.1 with
      | none => (.errJson 500 fetchErrBody, tk.2 ++ fr.2)
      | some d =>
        if d = [] then (.errJson 500 fetchErrBody, tk.2 ++ fr.2)
        else
          match process_telemetry_data w.nowMs d with
          | .error er => (.uncaught er, tk.2 ++ fr.2)
          | .ok none => (.uncaught .typeError, tk.2 ++ fr.2)
          | .ok (some s) =>
              (.ok (s ++ [("ngrok_url", (extract_ngrok d).getD .null)]), tk.2 ++ fr.2)

/-- The seven canonical metric keys, in the order the spec lists them. -/
def canonical_keys : List String :=
  ["voltage", "current", "power", "energy", "frequency", "powerfact", "rmp"]

/-- Modelled from the spec: the resolved array of a canonical metric in a
range payload — the array under the first matching alias, or empty when
no alias resolves (spec section 4.5: for each canonical metric, resolve
its actual upstream key, or none). -/
def metricArray (d : Payload) (k : String) : List Entry :=
  match find_matching_key d ((TELEMETRY_KEY_MAPPING.lookup k).getD [k]) with
  | some ak => (d.lookup ak).getD []
  | none => []

/-- Modelled from the spec: `maxLen`, the maximum array length across all
resolved canonical metrics (0 if none resolved). -/
def rangeMaxLen (d : Payload) : ℕ :=
  (canonical_keys.map (fun k => (metricArray d k).length)).foldr max 0

/-- One time-series point of the range view: per-metric values plus the
timestamp taken from the power metric only. -/
structure RangePoint where
  timestamp : Option Int
  values : List (String × ℚ)
deriving DecidableEq

/-- Modelled from the spec: point `i` of the range view — each metric
contributes its i-th array value (default 0 past its bound or when
unresolved); the timestamp comes from the power metric's i-th element. -/
def rangePoint (d : Payload) (i : ℕ) : RangePoint :=
  { timestamp := match (metricArray d "power").get? i with
                 | some e => e.ts
                 | none => none
    values := canonical_keys.map (fun k =>
      (k, match (metricArray d k).get? i with
          | some e => entryValue e
          | none => 0)) }

/-- The Range JSON body: derived time bounds, the interval and limit used
for the upstream query, the descriptive interval label, and the points. -/
structure RangeBody where
  startTs : Int
  endTs : Int
  intervalMs : Int
  limitN : Int
  intervalLabel : String
  points : List RangePoint
deriving DecidableEq

/-- Result of a range route: a 200 Range JSON or an error JSON body. -/
inductive RangeResult
  | ok (body : RangeBody)
  | errJson (status : Int) (body : Snapshot)
deriving DecidableEq

/-- Modelled from the spec: the weekly/monthly route logic, whose bodies
are elided in the source (`pass` with the comment "Same logic (unchanged
from your original code)"). Per spec sections 4.5 and 6: obtain a token
like the main route, derive `startTs = now - days*86400000`, `endTs =
now`, fetch once with all seven canonical keys and the caller's interval
and limit, reply with the documented error shapes on failure, and shape
`maxLen` points with an `"hourly"` label when `days <= 7`, else
`"daily"`. -/
def get_range_telemetry (days intervalMs limitN : Int) (cfg : Config) (w : World) :
    RangeResult × List Event :=
  let tk := route_token cfg w
  match tk.1 with
  | none => (.errJson 401 authErrBody, tk.2)
  | some t =>
    if t = "" then (.errJson 401 authErrBody, tk.2)
    else
      let startTs := w.nowMs - days * 86400000
      let endTs := w.nowMs
      let fr := fetch_telemetry cfg w (some t) (some canonical_keys)
                  (some startTs) (some endTs) (some intervalMs) (some limitN)
      match fr.1 with
      | none => (.errJson 500 fetchErrBody, tk.2 ++ fr.2)
      | some d =>
        if d = [] then (.errJson 500 fetchErrBody, tk.2 ++ fr.2)
        else
          (.ok { startTs := startTs
                 endTs := endTs
                 intervalMs := intervalMs
                 limitN := limitN
                 intervalLabel := if days ≤ 7 then "hourly" else "daily"
                 points := (List.range (rangeMaxLen d)).map (rangePoint d) },
           tk.2 ++ fr.2)

/-- Modelled from the spec: `GET /api/telemetry/weekly` — 7 days of
hourly buckets, interval 3600000 ms, limit 168. -/
def get_weekly_telemetry (cfg : Config) (w : World) : RangeResult × List Event :=
  get_range_telemetry 7 3600000 168 cfg w

/-- Modelled from the spec: `GET /api/telemetry/monthly` — 30 days of
daily buckets, interval 86400000 ms, limit 30. -/
def get_monthly_telemetry (cfg : Config) (w : World) : RangeResult × List Event :=
  get_range_telemetry 30 86400000 30 cfg w

/-- The response shape claim C2 asserts of a range route: a 200 body
carrying the stated interval, limit and day span, or one of the two
documented error JSON bodies. -/
def rangeOkShape (iv lim span : Int) : RangeResult → Prop
  | .ok b => b.intervalMs = iv ∧ b.limitN = lim ∧ b.endTs - b.startTs = span
  | .errJson st body => (st = 401 ∧ body = authErrBody) ∨ (st = 500 ∧ body = fetchErrBody)

/-- Field lookup in a processed snapshot, when processing succeeded. -/
def procLookup (r : Except PyError (Option Snapshot)) (k : String) : Option JVal :=
  match r with
  | .ok (some s) => s.lookup k
  | _ => none

/-- The outward key sequence of every successful single-point snapshot. -/
def snapshot_keys : List String :=
  ["power", "power_timestamp", "voltage", "voltage_timestamp",
   "current", "current_timestamp", "frequency", "frequency_timestamp",
   "rmp", "rmp_timestamp", "energy", "energy_timestamp",
   "powerfactor", "powerfactor_timestamp", "timestamp", "online"]

/-- Telemetry GET events in a trace. -/
def isGet : Event → Bool
  | .telemetryGet _ _ => true
  | _ => false

/-- Number of telemetry GET requests in a trace. -/
def countGets (evs : List Event) : ℕ := (evs.filter isGet).length

/-! Concrete fixtures used by witnesses and counterexamples. -/

/-- Configuration with no static override token. -/
def cfg0 : Config := { jwtToken := none }

/-- Configuration with a static override token `"T"`. -/
def cfgT : Config := { jwtToken := some "T" }

/-- Configuration with a static override token `"override"`. -/
def cfgOverride : Config := { jwtToken := some "override" }

/-- The empty query-parameter dictionary. -/
def pEmpty : Params :=
  { keys := none, startTs := none, endTs := none, interval := none, limit := none }

/-- A payload holding only an unrelated key. -/
def dOther : Payload := [("X", [{ value := some (.num 3), ts := some 7 }])]

/-- A payload whose `"Voltage"` array is empty — the failing input of the
empty-array IndexError. -/
def dEmptyArr : Payload := [("Voltage", ([] : List Entry))]

/-- A payload carrying both the `"Voltage"` and `"VOLTAGE"` aliases with
different values. -/
def dBoth : Payload :=
  [("Voltage", [{ value := some (.num 1), ts := some 100 }]),
   ("VOLTAGE", [{ value := some (.num 2), ts := some 200 }])]

/-- A payload whose only voltage-like key uses a casing that is not an
enumerated alias. -/
def dFunkyCase : Payload := [("VoLtAgE", [{ value := some (.num 5), ts := some 10 }])]

/-- A payload carrying the powerfact metric under its `"PF"` alias. -/
def dPF : Payload := [("PF", [{ value := some (.num 5), ts := some 1 }])]

/-- The snapshot produced from `dPF` at time 1000. -/
def sPF : Snapshot :=
  [("power", .num 0), ("power_timestamp", .null),
   ("voltage", .num 0), ("voltage_timestamp", .null),
   ("current", .num 0), ("current_timestamp", .null),
   ("frequency", .num 0), ("frequency_timestamp", .null),
   ("rmp", .num 0), ("rmp_timestamp", .null),
   ("energy", .num 0), ("energy_timestamp", .null),
   ("powerfactor", .num 5), ("powerfactor_timestamp", .num 1),
   ("timestamp", .num 1000), ("online", .boolv true)]

/-- A world whose every telemetry GET succeeds with an empty body and
whose every login attempt fails with a server error. -/
def wOK : World :=
  { internetUp := true
    loginResp := fun _ => .httpError
    telemResp := fun _ => .success []
    nowMs := 0 }

/-- A world whose telemetry fetch succeeds with a payload that makes the
normalizer raise (empty `"Voltage"` array). -/
def wBug : World :=
  { internetUp := true
    loginResp := fun _ => .httpError
    telemResp := fun _ => .success dEmptyArr
    nowMs := 1000 }

/-- A world whose first telemetry GET answers 401, whose login succeeds
with a fresh token, and whose retried GET succeeds. -/
def wReauth : World :=
  { internetUp := true
    loginResp := fun _ => .success (some "fresh")
    telemResp := fun n => if n = 0 then .status401 else .success dOther
    nowMs := 0 }

/-- A world whose login endpoint answers 401. -/
def w401 : World :=
  { internetUp := true
    loginResp := fun _ => .status401
    telemResp := fun _ => .httpError
    nowMs := 0 }

/-- A world whose login endpoint always answers with a server error. -/
def w500 : World :=
  { internetUp := true
    loginResp := fun _ => .httpError
    telemResp := fun _ => .httpError
    nowMs := 0 }

/-! Helper lemmas shared by the claim theorems. -/

/-- The Python truthiness filter on an optional integer argument is the
identity away from the value 0. -/
theorem pyOptInt_of_ne_zero (v : Option Int) (hv : v ≠ some 0) : pyOptInt v = v := by
  cases v with
  | none => rfl
  | some x =>
    simp [pyOptInt]
    intro hx
    exact hv (by rw [hx])

/-- Every outcome of a range route is a 200 Range body carrying the
requested interval, limit and day span, or one of the two documented
error JSON bodies. -/
theorem range_shape (days iv lim : Int) (cfg : Config) (w : World) :
    rangeOkShape iv lim (days * 86400000) (get_range_telemetry days iv lim cfg w).1 := by
  rcases h1 : (route_token cfg w).1 with _ | t
  · simp [get_range_telemetry, h1, rangeOkShape]
  · by_cases h2 : t = ""
    · simp [get_range_telemetry, h1, h2, rangeOkShape]
    · rcases h3 : (fetch_telemetry cfg w (some t) (some canonical_keys)
          (some (w.nowMs - days * 86400000)) (some w.nowMs) (some iv) (some lim)).1 with _ | d
      · simp [get_range_telemetry, h1, h2, h3, rangeOkShape]
      · by_cases h4 : d = []
        · simp [get_range_telemetry, h1, h2, h3, h4, rangeOkShape]
        · simp [get_range_telemetry, h1, h2, h3, h4, rangeOkShape]

/-! The claim theorems. -/

/-- C1: the claim says `get_value_and_timestamp` never raises, returning
the zero sample both when no alias matches and when the matched array is
empty. The first conjunct confirms the no-match half; the second shows
the code violating the empty-array half: on the payload mapping
`"Voltage"` to an empty array, resolving `voltage` raises IndexError,
because the defensive default of `data.get(actual_key, [{}])` cannot
fire once the key was found present. -/
theorem C1_resolve_empty_array_raises :
    get_value_and_timestamp dOther "voltage" = .ok (0, none) ∧
    get_value_and_timestamp dEmptyArr "voltage" = .error .indexError := by
  decide

/-- C2: every weekly route response is a 200 Range body for 7 days of
hourly buckets (interval 3600000 ms, limit 168) or one of the two
documented error JSON bodies, and every monthly route response is a 200
Range body for 30 days of daily buckets (interval 86400000 ms, limit 30)
or those error bodies. The handlers are modelled from the spec, their
bodies being elided in the source. -/
theorem C2_range_endpoints_shape (cfg : Config) (w : World) :
    rangeOkShape 3600000 168 (7 * 86400000) (get_weekly_telemetry cfg w).1 ∧
    rangeOkShape 86400000 30 (30 * 86400000) (get_monthly_telemetry cfg w).1 :=
  ⟨range_shape 7 3600000 168 cfg w, range_shape 30 86400000 30 cfg w⟩

/-- C3 counterexample: with the static override `"override"` configured,
a telemetry fetch whose first response is 401 re-authenticates through
`get_auth_token`, performing a connectivity probe and a login request —
network calls — and retries with the freshly obtained token `"fresh"`,
not with the override. This refutes the claim that every token-obtaining
path, including the in-fetch re-authentication, returns the override
with zero network calls. -/
theorem C3_reauth_ignores_override :
    fetch_telemetry cfgOverride wReauth (some "override") none none none none none
      = (some dOther, [.probe, .telemetryGet "override" pEmpty, .probe, .login,
                       .telemetryGet "fresh" pEmpty]) ∧
    get_auth_token cfgOverride wReauth = (some "fresh", [.probe, .login]) := by
  decide

/-- C3 amended: whenever a static override token is configured, the
route-level token acquisition returns it verbatim with zero network
calls; but the re-authentication performed inside the telemetry fetch
after an HTTP 401 goes through `get_auth_token`, which never consults
the override and performs network calls (at least a login request)
whenever the connectivity probe succeeds. -/
theorem C3_override_short_circuits_route_only :
    (∀ (cfg : Config) (w : World) (t : String), cfg.jwtToken = some t → t ≠ "" →
      route_token cfg w = (some t, [])) ∧
    (∀ (cfg : Config) (w : World), w.internetUp = true →
      Event.login ∈ (get_auth_token cfg w).2) := by
  constructor
  · intro cfg w t hj ht
    simp [route_token, hj, ht]
  · intro cfg w hup
    cases h0 : w.loginResp 0 <;>
      simp [get_auth_token, hup, auth_attempts, h0]

/-- Witness for C3 amended, at the override configuration and the
re-authentication world. -/
theorem C3_override_short_circuits_route_only_witness :
    route_token cfgOverride wReauth = (some "override", []) ∧
    Event.login ∈ (get_auth_token cfgOverride wReauth).2 :=
  ⟨C3_override_short_circuits_route_only.1 cfgOverride wReauth "override" rfl (by decide),
   C3_override_short_circuits_route_only.2 cfgOverride wReauth rfl⟩

/-- C4: a telemetry fetch whose first upstream response is HTTP 401
performs exactly one re-authentication and exactly one retry of the same
request (same params) with the new token, returning the retried
response body on success; when the re-authentication fails it returns
None with no retry; and when the retried request is again 401 it returns
None after exactly two telemetry GETs, never looping further. -/
theorem C4_single_reauth_single_retry :
    (∀ (cfg : Config) (w : World) (t nt : String) (b : Payload)
        (ks : Option (List String)) (s e i l : Option Int),
      t ≠ "" → w.internetUp = true → w.telemResp 0 = .status401 →
      w.loginResp 0 = .success (some nt) → nt ≠ "" → w.telemResp 1 = .success b →
      fetch_telemetry cfg w (some t) ks s e i l =
        (some b, [.probe, .telemetryGet t (build_params ks s e i l), .probe, .login,
                  .telemetryGet nt (build_params ks s e i l)])) ∧
    (∀ (cfg : Config) (w : World) (t : String)
        (ks : Option (List String)) (s e i l : Option Int),
      t ≠ "" → w.internetUp = true → w.telemResp 0 = .status401 →
      w.loginResp 0 = .status401 →
      fetch_telemetry cfg w (some t) ks s e i l =
        (none, [.probe, .telemetryGet t (build_params ks s e i l), .probe, .login])) ∧
    (∀ (cfg : Config) (w : World) (t nt : String)
        (ks : Option (List String)) (s e i l : Option Int),
      t ≠ "" → w.internetUp = true → w.telemResp 0 = .status401 →
      w.loginResp 0 = .success (some nt) → nt ≠ "" → w.telemResp 1 = .status401 →
      (fetch_telemetry cfg w (some t) ks s e i l).1 = none ∧
      countGets (fetch_telemetry cfg w (some t) ks s e i l).2 = 2) := by
  refine ⟨?_, ?_, ?_⟩
  · intro cfg w t nt b ks s e i l ht hup h401 hlog hnt h2
    simp [fetch_telemetry, ht, hup, h401, get_auth_token, auth_attempts, hlog, hnt, h2, respBody]
  · intro cfg w t ks s e i l ht hup h401 hlog
    simp [fetch_telemetry, ht, hup, h401, get_auth_token, auth_attempts, hlog]
  · intro cfg w t nt ks s e i l ht hup h401 hlog hnt h2
    simp [fetch_telemetry, ht, hup, h401, get_auth_token, auth_attempts, hlog, hnt, h2,
      respBody, countGets, isGet]

/-- Witness for C4, at the 401-then-200 world. -/
theorem C4_single_reauth_single_retry_witness :
    fetch_telemetry cfg0 wReauth (some "T") none none none none none
      = (some dOther, [.probe, .telemetryGet "T" pEmpty, .probe, .login,
                       .telemetryGet "fresh" pEmpty]) :=
  C4_single_reauth_single_retry.1 cfg0 wReauth "T" "fresh" dOther none none none none none
    (by decide) rfl rfl rfl (by decide) rfl

/-- C5: the login attempt loop returns None immediately after a single
attempt on HTTP 401 (no retry, no sleep), and on persistent non-401
failures makes exactly 3 attempts with inter-attempt delays of 1s then
2s, no sleep after the final attempt, returning None on exhaustion. -/
theorem C5_login_attempt_policy :
    (∀ (cfg : Config) (w : World), w.internetUp = true → w.loginResp 0 = .status401 →
      get_auth_token cfg w = (none, [.probe, .login])) ∧
    (∀ (cfg : Config) (w : World), w.internetUp = true →
      (∀ i, w.loginResp i = .httpError) →
      get_auth_token cfg w = (none, [.probe, .login, .sleep 1, .login, .sleep 2, .login])) := by
  constructor
  · intro cfg w hup h0
    simp [get_auth_token, hup, auth_attempts, h0]
  · intro cfg w hup hall
    simp [get_auth_token, hup, auth_attempts, hall 0, hall 1, hall 2]

/-- Witness for C5, at the 401 world and the persistent-error world. -/
theorem C5_login_attempt_policy_witness :
    get_auth_token cfg0 w401 = (none, [.probe, .login]) ∧
    get_auth_token cfg0 w500
      = (none, [.probe, .login, .sleep 1, .login, .sleep 2, .login]) :=
  ⟨C5_login_attempt_policy.1 cfg0 w401 rfl rfl,
   C5_login_attempt_policy.2 cfg0 w500 rfl (fun _ => rfl)⟩

/-- C6: the claim says every route-level handler catches all failure
modes internally and no uncaught exception from the fetch-and-normalize
pipeline reaches the HTTP layer. The code violates this: with a
successful fetch whose payload maps `"Voltage"` to an empty array, the
`/api/telemetry` handler lets the IndexError raised inside
`get_value_and_timestamp` escape uncaught to the HTTP layer. -/
theorem C6_uncaught_indexerror_reaches_http :
    (get_telemetry_route cfgT wBug).1 = .uncaught .indexError := by
  decide

/-- C7: alias resolution is order-sensitive and case-sensitive. First
conjunct: whenever the payload contains the key `"Voltage"` (the first
alias of `voltage`), resolution takes the value and timestamp of the
first element of the array under `"Voltage"`, regardless of any other
alias such as `"VOLTAGE"` also being present with different values.
Second conjunct: a payload whose only voltage-like key uses an
unenumerated casing does not match at all — no case-folding of the
payload is performed. -/
theorem C7_alias_order_sensitive :
    (∀ (d : Payload) (en : Entry) (rest : List Entry),
      d.lookup "Voltage" = some (en :: rest) →
      get_value_and_timestamp d "voltage" = .ok (entryValue en, en.ts)) ∧
    get_value_and_timestamp dFunkyCase "voltage" = .ok (0, none) := by
  constructor
  · intro d en rest h
    have hpk : TELEMETRY_KEY_MAPPING.lookup "voltage"
        = some ["Voltage", "voltage", "VOLTAGE"] := by decide
    simp [get_value_and_timestamp, hpk, find_matching_key, List.find?, h]
  · decide

/-- Witness for C7, at the payload carrying both `"Voltage"` mapped to
value 1 and `"VOLTAGE"` mapped to value 2: resolution returns 1. -/
theorem C7_alias_order_sensitive_witness :
    get_value_and_timestamp dBoth "voltage" = .ok (1, some 100) :=
  C7_alias_order_sensitive.1 dBoth { value := some (.num 1), ts := some 100 } [] (by decide)

/-- C8 counterexample: the claim says every supplied optional parameter
passes through verbatim. With `startTs` supplied as 0 — a Python-falsy
value — the upstream query carries no startTs parameter at all: the GET
event records the empty parameter dictionary. -/
theorem C8_zero_startts_dropped :
    fetch_telemetry cfg0 wOK (some "T") none (some 0) none none none
      = (some [], [.probe, .telemetryGet "T" pEmpty]) ∧
    pEmpty.startTs = none := by
  decide

/-- C8 amended: each of startTs, endTs, interval, limit passes through
verbatim to the upstream query whenever it is supplied with a nonzero
value; a supplied value of 0 is treated like an absent one and omitted
(the source guards each parameter with Python truthiness). -/
theorem C8_passthrough_nonzero (cfg : Config) (w : World) (t : String)
    (ks : Option (List String)) (s e i l : Option Int)
    (ht : t ≠ "") (hup : w.internetUp = true)
    (hs : s ≠ some 0) (he : e ≠ some 0) (hi : i ≠ some 0) (hl : l ≠ some 0) :
    (fetch_telemetry cfg w (some t) ks s e i l).2.take 2
        = [.probe, .telemetryGet t (build_params ks s e i l)] ∧
    (build_params ks s e i l).startTs = s ∧ (build_params ks s e i l).endTs = e ∧
    (build_params ks s e i l).interval = i ∧ (build_params ks s e i l).limit = l := by
  refine ⟨?_, ?_, ?_, ?_, ?_⟩
  · cases h0 : w.telemResp 0 with
    | status401 =>
        simp only [fetch_telemetry, ht, hup, h0, if_false, if_true]
        cases ha : (get_auth_token cfg w).1 with
        | none => simp [ha]
        | some nt =>
            simp only [ha]
            split <;> simp
    | httpError => simp [fetch_telemetry, ht, hup, h0]
    | success b => simp [fetch_telemetry, ht, hup, h0]
  · simp [build_params, pyOptInt_of_ne_zero s hs]
  · simp [build_params, pyOptInt_of_ne_zero e he]
  · simp [build_params, pyOptInt_of_ne_zero i hi]
  · simp [build_params, pyOptInt_of_ne_zero l hl]

/-- Witness for C8 amended, at nonzero supplied values 5, 6, 7, 8. -/
theorem C8_passthrough_nonzero_witness :
    (fetch_telemetry cfg0 wOK (some "T") none (some 5) (some 6) (some 7) (some 8)).2.take 2
        = [.probe, .telemetryGet "T" (build_params none (some 5) (some 6) (some 7) (some 8))] ∧
    (build_params none (some 5) (some 6) (some 7) (some 8)).startTs = some 5 ∧
    (build_params none (some 5) (some 6) (some 7) (some 8)).endTs = some 6 ∧
    (build_params none (some 5) (some 6) (some 7) (some 8)).interval = some 7 ∧
    (build_params none (some 5) (some 6) (some 7) (some 8)).limit = some 8 :=
  C8_passthrough_nonzero cfg0 wOK "T" none (some 5) (some 6) (some 7) (some 8)
    (by decide) rfl (by decide) (by decide) (by decide) (by decide)

/-- C9 counterexample: the claim says each of the seven metrics is keyed
outward by its canonical key. For a payload carrying the powerfact
metric under its `"PF"` alias with value 5, the snapshot has no
`"powerfact"` field — the value sits under `"powerfactor"`. -/
theorem C9_powerfact_key_mismatch :
    procLookup (process_telemetry_data 1000 dPF) "powerfact" = none ∧
    procLookup (process_telemetry_data 1000 dPF) "powerfactor" = some (.num 5) := by
  decide

/-- C9 amended: every successful single-point snapshot carries exactly
the fixed outward key sequence, in which six of the seven metrics are
keyed by their canonical key while the powerfact metric is keyed
`"powerfactor"` (with timestamp key `"powerfactor_timestamp"`). -/
theorem C9_snapshot_outward_keys (nowMs : Int) (d : Payload) (s : Snapshot)
    (h : process_telemetry_data nowMs d = .ok (some s)) :
    s.map Prod.fst = snapshot_keys := by
  unfold process_telemetry_data at h
  split at h
  · simp at h
  · repeat' split at h
    all_goals simp only [Except.ok.injEq, Option.some.injEq, reduceCtorEq] at h
    subst h
    rfl

/-- Witness for C9 amended, at the `"PF"` payload. -/
theorem C9_snapshot_outward_keys_witness :
    process_telemetry_data 1000 dPF = .ok (some sPF) ∧ sPF.map Prod.fst = snapshot_keys :=
  ⟨by decide, C9_snapshot_outward_keys 1000 dPF sPF (by decide)⟩

/-- C10: when the upstream fetch succeeds but returns the empty JSON
object, `/api/telemetry` answers with the 500 error body — the same
response as a failed fetch — because both the route guard and
`process_telemetry_data` treat a falsy payload as absent data. -/
theorem C10_empty_payload_indistinguishable :
    (∀ (cfg : Config) (w : World) (t : String),
      cfg.jwtToken = some t → t ≠ "" → w.internetUp = true →
      w.telemResp 0 = .success [] →
      (get_telemetry_route cfg w).1 = .errJson 500 fetchErrBody) ∧
    (∀ nowMs : Int, process_telemetry_data nowMs [] = .ok none) ∧
    (∀ (cfg : Config) (w : World) (t : String),
      cfg.jwtToken = some t → t ≠ "" → w.internetUp = true →
      w.telemResp 0 = .httpError →
      (get_telemetry_route cfg w).1 = .errJson 500 fetchErrBody) := by
  refine ⟨?_, fun _ => rfl, ?_⟩
  · intro cfg w t hj ht hup h0
    simp [get_telemetry_route, route_token, hj, ht, fetch_telemetry, hup, h0, respBody]
  · intro cfg w t hj ht hup h0
    simp [get_telemetry_route, route_token, hj, ht, fetch_telemetry, hup, h0, respBody]

/-- Witness for C10, at the empty-success world and the failing world. -/
theorem C10_empty_payload_indistinguishable_witness :
    (get_telemetry_route cfgT wOK).1 = .errJson 500 fetchErrBody ∧
    (get_telemetry_route cfgT w500).1 = .errJson 500 fetchErrBody :=
  ⟨C10_empty_payload_indistinguishable.1 cfgT wOK "T" rfl (by decide) rfl rfl,
   C10_empty_payload_indistinguishable.2.2 cfgT w500 "T" rfl (by decide) rfl rfl⟩
